import Mathlib

/-!
Shallow embedding of the google-cloud-dyn-dns-client repository
(src/publicip.py, src/dyndnsclient.py, src/publicipsources.py).

Modelling conventions:
* Python timestamps (`datetime.datetime.utcnow().timestamp()`, a float of
  seconds) are modelled as rationals.  Every float value that actually
  occurs in the claims (`1.5 ** k` for small `k`, sums of timestamps and
  TTLs) is a dyadic rational that IEEE doubles represent exactly, so `ℚ`
  is a faithful model of the arithmetic the program performs.
* In-place mutation of `self` is modelled by explicit state passing: each
  method takes the object state and returns the new state together with
  its result.
* A Python call that raises is modelled as `Except PyErr`; the state
  component still records the mutations performed before the raise.
* Network collaborators (`requests.get`, the DNS resolver, the auth
  helper, `requests.post`) are modelled as explicit input parameters that
  describe the outcome of the corresponding call; the embedding counts
  how many such calls each code path performs.
-/

/-- Python exception classes that the embedded code can raise. -/
inductive PyErr where
  | typeError
  | valueError
  | attributeError
  | unboundLocalError
  | noAnswer
  deriving DecidableEq, Repr

/-- An IPv4 address as four octets (Python `ipaddress.IPv4Address`). -/
structure Ipv4 where
  o1 : ℕ
  o2 : ℕ
  o3 : ℕ
  o4 : ℕ
  deriving DecidableEq, Repr

/-- Is the string a valid decimal octet per `ipaddress` (only digits, at
most three of them, no leading zero unless the octet is "0", value ≤ 255)? -/
def validOctet (s : String) : Bool :=
  let cs := s.toList
  decide (cs ≠ []) && cs.all Char.isDigit && decide (cs.length ≤ 3) &&
    (decide (cs.length = 1) || decide (cs.headI ≠ '0')) &&
    decide (s.toNat! ≤ 255)

/-- Python `ipaddress.ip_address` restricted to IPv4: parse a dotted quad.
Returns `none` whenever CPython would raise `ValueError` or produce an
`IPv6Address` (both are rejected by the caller's `type(ip) is not
IPv4Address` check, so they land in the same failure path). -/
def parseIpv4 (s : String) : Option Ipv4 :=
  match s.splitOn "." with
  | [a, b, c, d] =>
      if validOctet a && validOctet b && validOctet c && validOctet d then
        some ⟨a.toNat!, b.toNat!, c.toNat!, d.toNat!⟩
      else
        none
  | _ => none

/-- Is the address inside `net/prefix`?  `net` is given as four octets. -/
def inNet (ip : Ipv4) (n1 n2 n3 n4 : ℕ) (prefix_ : ℕ) : Bool :=
  let v : ℕ := ((ip.o1 * 256 + ip.o2) * 256 + ip.o3) * 256 + ip.o4
  let w : ℕ := ((n1 * 256 + n2) * 256 + n3) * 256 + n4
  decide (v / 2 ^ (32 - prefix_) = w / 2 ^ (32 - prefix_))

/-- Python `IPv4Address.is_global`: not in the shared range 100.64.0.0/10
and not in any of the `_private_networks` of the `ipaddress` module. -/
def isGlobalIpv4 (ip : Ipv4) : Bool :=
  !(inNet ip 100 64 0 0 10) &&
  !(inNet ip 0 0 0 0 8) &&
  !(inNet ip 10 0 0 0 8) &&
  !(inNet ip 127 0 0 0 8) &&
  !(inNet ip 169 254 0 0 16) &&
  !(inNet ip 172 16 0 0 12) &&
  !(inNet ip 192 0 0 0 29) &&
  !(inNet ip 192 0 0 170 31) &&
  !(inNet ip 192 0 2 0 24) &&
  !(inNet ip 192 168 0 0 16) &&
  !(inNet ip 198 18 0 0 15) &&
  !(inNet ip 198 51 100 0 24) &&
  !(inNet ip 203 0 113 0 24) &&
  !(inNet ip 240 0 0 0 4) &&
  !(inNet ip 255 255 255 255 32)

/-- Lines 147-150 of publicip.py: `ip_address(ip_address_str)` followed by
the `is_global` / `IPv4Address` check.  The argument is the value returned
by the extraction routine (`None` makes `ip_address` raise `ValueError`,
which the same `except ValueError` arm catches). -/
def validateGlobalIpv4 (s? : Option String) : Option Ipv4 :=
  match s? with
  | none => none
  | some s =>
      match parseIpv4 s with
      | none => none
      | some ip => if isGlobalIpv4 ip then some ip else none

/-! ## PublicIpSource (src/publicip.py lines 15-172) -/

/-- Mutable state of `publicip.PublicIpSource`.  The extraction strategy
`_get_ip_routine` is a function-valued field in Python; it is passed to
the poll step explicitly (it is set at construction and never mutated) so
that states stay decidably comparable. -/
structure PublicIpSource where
  enabled : Bool
  name : String
  apiUrl : String
  ttlSec : ℚ
  maxInactiveSecs : ℚ
  lastPollTimestamp : Option ℚ
  nextPollTimestamp : Option ℚ
  lastSuccessfulPoll : Option ℚ
  consecutiveHttpErrorCount : ℕ
  consecutiveHttp429Count : ℕ
  consecutiveErrorCount : ℕ
  epochTimestamp : ℚ
  deriving DecidableEq, Repr

/-- Constructor `PublicIpSource.__init__` (publicip.py lines 18-39). -/
def PublicIpSource.init (name apiUrl : String) (ttlSec maxInactiveSecs now : ℚ) :
    PublicIpSource where
  enabled := true
  name := name
  apiUrl := apiUrl
  ttlSec := ttlSec
  maxInactiveSecs := maxInactiveSecs
  lastPollTimestamp := none
  nextPollTimestamp := some 0
  lastSuccessfulPoll := none
  consecutiveHttpErrorCount := 0
  consecutiveHttp429Count := 0
  consecutiveErrorCount := 0
  epochTimestamp := now

/-- Class attribute `PublicIpSource._backoff_factor = 1.5`. -/
def backoffFactor : ℚ := 3 / 2

/-- Python `a or b` for a float-or-None `a`: `None` and `0.0` are falsy. -/
def pyOrQ (a : Option ℚ) (b : ℚ) : ℚ :=
  match a with
  | none => b
  | some t => if t = 0 then b else t

/-- Method `_check_for_expiration` (publicip.py lines 163-172): disable the
source, and clear `_next_poll_timestamp` to `None`, when the last success
(or creation) was more than `_max_inactive_secs` ago. -/
def checkForExpiration (s : PublicIpSource) (now : ℚ) : PublicIpSource :=
  let startTime := pyOrQ s.lastSuccessfulPoll s.epochTimestamp
  if s.maxInactiveSecs < now - startTime then
    { s with nextPollTimestamp := none, enabled := false }
  else
    s

/-- Outcome of `requests.get(...)` followed by `response.raise_for_status()`
(publicip.py lines 102-103). -/
inductive FetchResult where
  | ok (body : String)
  | errStatus (code : ℕ)
  | noResponse
  deriving DecidableEq, Repr

/-- Which path one call of `get_my_public_ip` took.  The repository's own
test suite (tests/test_publicip.py, `PublicIpSourceOutcome`) classifies
the paths the same way; `raised` marks the paths on which the Python code
lets an exception escape to the caller. -/
inductive PollOutcome where
  | disabledSource
  | ttlNotExpired
  | throttled
  | transportError
  | extractionError
  | invalidIpError
  | success
  | raised
  deriving DecidableEq, Repr

/-- Result of one call of `PublicIpSource.get_my_public_ip`: the Python
return value (or escaped exception), the path taken, the number of
`requests.get` calls performed, and the state of the object afterwards. -/
structure PollStep where
  retVal : Except PyErr (Option Ipv4)
  outcome : PollOutcome
  httpRequests : ℕ
  state : PublicIpSource
  deriving Repr

/-- Lines 101-161 of publicip.py: the body of `get_my_public_ip` after
the precondition checks, starting from the state in which
`_last_poll_timestamp` and `_next_poll_timestamp` have been set (lines
98-99). -/
def pollAttempt (s : PublicIpSource) (now : ℚ) (fetch : FetchResult)
    (routine : String → Except PyErr (Option String)) : PollStep :=
  match fetch with
  | .noResponse =>
      let s := { s with consecutiveErrorCount := s.consecutiveErrorCount + 1 }
      ⟨.error .unboundLocalError, .raised, 1, s⟩
  | .errStatus code =>
      let s := { s with consecutiveErrorCount := s.consecutiveErrorCount + 1 }
      if code = 429 then
        let s := { s with
          consecutiveHttp429Count := s.consecutiveHttp429Count + 1,
          consecutiveHttpErrorCount := 0 }
        let backOffTime := backoffFactor ^ s.consecutiveHttp429Count
        let s := { s with nextPollTimestamp := some (now + s.ttlSec + backOffTime) }
        ⟨.ok none, .throttled, 1, checkForExpiration s now⟩
      else
        let s := { s with
          consecutiveHttp429Count := 0,
          consecutiveHttpErrorCount := s.consecutiveHttpErrorCount + 1 }
        ⟨.ok none, .transportError, 1, checkForExpiration s now⟩
  | .ok body =>
      let s := { s with
        consecutiveHttp429Count := 0,
        consecutiveHttpErrorCount := 0 }
      match routine body with
      | .error _ =>
          let s := { s with consecutiveErrorCount := s.consecutiveErrorCount + 1 }
          ⟨.ok none, .extractionError, 1, checkForExpiration s now⟩
      | .ok ipStr? =>
          match validateGlobalIpv4 ipStr? with
          | none =>
              let s := { s with consecutiveErrorCount := s.consecutiveErrorCount + 1 }
              ⟨.ok none, .invalidIpError, 1, checkForExpiration s now⟩
          | some ip =>
              let s := { s with
                lastSuccessfulPoll := some now,
                consecutiveErrorCount := 0 }
              ⟨.ok (some ip), .success, 1, s⟩

/-- Method `PublicIpSource.get_my_public_ip` (publicip.py lines 85-161):
the disabled and unexpired-TTL precondition checks (no state change, no
network), then the attempt body on the state whose poll timestamps have
been advanced.  `fetch` is the outcome of the one `requests.get` the
method may perform, and `routine` is the object's `_get_ip_routine`
field (its Python result is a string or `None`, or it raises). -/
def getMyPublicIp (s : PublicIpSource) (now : ℚ) (fetch : FetchResult)
    (routine : String → Except PyErr (Option String)) : PollStep :=
  if s.enabled = false then
    ⟨.ok none, .disabledSource, 0, s⟩
  else
    match s.nextPollTimestamp with
    | none =>
        ⟨.error .typeError, .raised, 0, s⟩
    | some t =>
        if now < t then
          ⟨.ok none, .ttlNotExpired, 0, s⟩
        else
          pollAttempt
            { s with
              lastPollTimestamp := some now,
              nextPollTimestamp := some (now + s.ttlSec) }
            now fetch routine

/-! ## MyPublicIP (src/publicip.py lines 175-218) -/

/-- Mutable state of `publicip.MyPublicIP`: the ordered source collection
and the round-robin index (`None` until lazily initialized). -/
structure MyPublicIP where
  sources : List PublicIpSource
  nextApiIndex : Option ℕ
  deriving Repr

/-- The `for cnt in range(0, len(...))` loop of `_get_next_ip_source`
(publicip.py lines 210-217).  `remaining` is the number of loop
iterations left; the loop body first evaluates
`ip_source.next_poll_timestamp <= now`, which raises `TypeError` when the
timestamp is `None` (as `_check_for_expiration` leaves it on a disabled
source), before the `and ip_source.enabled` conjunct is reached.
On a hit it returns the position scanned together with the source. -/
def scanLoop (srcs : List PublicIpSource) (startIdx : ℕ) (now : ℚ) :
    ℕ → ℕ → Except PyErr (Option (ℕ × PublicIpSource))
  | _, 0 => .ok none
  | cnt, remaining + 1 =>
      let index := (startIdx + cnt) % srcs.length
      match srcs.get? index with
      | none => .ok none
      | some src =>
          match src.nextPollTimestamp with
          | none => .error .typeError
          | some t =>
              if t ≤ now ∧ src.enabled = true then
                .ok (some (index, src))
              else
                scanLoop srcs startIdx now (cnt + 1) remaining

/-- Method `MyPublicIP._get_next_ip_source` (publicip.py lines 199-218).
`randomDraw` feeds the `random.randint(0, len - 1)` lazy initialization
of the index.  Returns the selected source (with the position it was
found at) and the state of the object afterwards. -/
def getNextIpSource (m : MyPublicIP) (now : ℚ) (randomDraw : ℕ) :
    Except PyErr (Option (ℕ × PublicIpSource) × MyPublicIP) :=
  if m.sources.length < 1 then
    .ok (none, m)
  else
    let startIdx :=
      match m.nextApiIndex with
      | none => randomDraw % m.sources.length
      | some i => i
    let m1 : MyPublicIP := { m with nextApiIndex := some startIdx }
    match scanLoop m.sources startIdx now 0 m.sources.length with
    | .error e => .error e
    | .ok none => .ok (none, m1)
    | .ok (some (index, src)) =>
        .ok (some (index, src),
          { m1 with nextApiIndex := some ((startIdx + 1) % m.sources.length) })

/-! ## DynDnsClient (src/dyndnsclient.py) -/

/-- Method `PythonDnsResolverWrapper.resolve` (dyndnsclient.py lines
38-64), as a function of the rrset text values the DNS answer produced:
more than one record raises `ValueError`, zero records returns `None`,
and a single record is parsed (a non-IPv4 or unparsable record falls
through to `return None`). -/
def resolveFromRrset (rrset : List String) : Except PyErr (Option Ipv4) :=
  if 1 < rrset.length then
    .error .valueError
  else if rrset.length < 1 then
    .ok none
  else
    .ok (parseIpv4 rrset.headI)

/-- Mutable state of `dyndnsclient.DynDnsClient`: the cached published IP
(`_current_ip`) and the cache timestamp, next to the static identity
fields.  The resolver and auth-helper collaborators are passed to each
call explicitly as the outcomes of the calls they would perform. -/
structure DynDnsClient where
  zoneName : String
  zoneDnsName : String
  dynDnsApiUrl : String
  hostname : String
  dnsCacheTtlSec : ℚ
  currentIp : Option Ipv4
  lastDnsQueryTimestamp : ℚ
  deriving DecidableEq, Repr

/-- Constructor `DynDnsClient.__init__` (dyndnsclient.py lines 96-121). -/
def DynDnsClient.init (zoneName zoneDnsName dynDnsApiUrl hostname : String)
    (dnsCacheTtlSec : ℚ) : DynDnsClient where
  zoneName := zoneName
  zoneDnsName := zoneDnsName
  dynDnsApiUrl := dynDnsApiUrl
  hostname := hostname
  dnsCacheTtlSec := dnsCacheTtlSec
  currentIp := none
  lastDnsQueryTimestamp := 0

/-- Method `DynDnsClient._query_dns` (dyndnsclient.py lines 144-154).
`resolveResult` is what `self._dns_resolver.resolve(...)` did.  When the
resolver returns `None`, the log statement on line 151 evaluates
`ipv4.exploded` on `None` and raises `AttributeError`; an exception from
the resolver propagates unchanged. -/
def queryDns (resolveResult : Except PyErr (Option Ipv4)) : Except PyErr Ipv4 :=
  match resolveResult with
  | .error e => .error e
  | .ok none => .error .attributeError
  | .ok (some ip) => .ok ip

/-- Method `DynDnsClient._update_dns_record` (dyndnsclient.py lines
156-184): `authenticate` runs outside the `try`, so its exceptions
propagate; the `requests.post` + `raise_for_status` pair is wrapped, so a
transport failure is caught and the method returns `False`.  `postOk`
says whether the one POST succeeded. -/
def updateDnsRecordPost (auth : Except PyErr Unit) (postOk : Bool) :
    Except PyErr Bool :=
  match auth with
  | .error e => .error e
  | .ok _ => .ok postOk

/-- Spec-level classification of the path `update_dns_record` took (the
Python method returns `None`; the paths are distinguished by the log
lines `"The Public IP has not changed"` / `"Successfully updated ..."` /
`"Failed to call DynDNS function."`). -/
inductive UpdateOutcome where
  | unchanged
  | updated
  | updateFailed
  deriving DecidableEq, Repr

/-- Result of one call of `DynDnsClient.update_dns_record`: the outcome
(or escaped exception), how many DNS lookups and how many update POSTs
were performed, and the state of the client afterwards. -/
structure ReconcileStep where
  result : Except PyErr UpdateOutcome
  dnsQueries : ℕ
  updateCalls : ℕ
  state : DynDnsClient
  deriving Repr

/-- Lines 130-142 of dyndnsclient.py: the compare-then-update tail of
`update_dns_record`, after the cache-refresh step. -/
def reconcileTail (c : DynDnsClient) (ipv4 : Ipv4) (auth : Except PyErr Unit)
    (postOk : Bool) (dnsQueries : ℕ) : ReconcileStep :=
  if c.currentIp = some ipv4 then
    ⟨.ok .unchanged, dnsQueries, 0, c⟩
  else
    match updateDnsRecordPost auth postOk with
    | .error e => ⟨.error e, dnsQueries, 0, c⟩
    | .ok true => ⟨.ok .updated, dnsQueries, 1, { c with currentIp := some ipv4 }⟩
    | .ok false => ⟨.ok .updateFailed, dnsQueries, 1, c⟩

/-- Method `DynDnsClient.update_dns_record` (dyndnsclient.py lines
123-142).  `resolveResult` is the outcome of the resolver call the method
would make if the cache is stale; `auth` and `postOk` describe the
auth-helper and POST outcomes of the update attempt it may perform. -/
def updateDnsRecord (c : DynDnsClient) (ipv4 : Ipv4) (now : ℚ)
    (resolveResult : Except PyErr (Option Ipv4)) (auth : Except PyErr Unit)
    (postOk : Bool) : ReconcileStep :=
  if c.dnsCacheTtlSec ≤ now - c.lastDnsQueryTimestamp then
    match queryDns resolveResult with
    | .error e => ⟨.error e, 1, 0, c⟩
    | .ok ip =>
        let c := { c with currentIp := some ip, lastDnsQueryTimestamp := now }
        reconcileTail c ipv4 auth postOk 1
  else
    reconcileTail c ipv4 auth postOk 0

/-! ## publicipsources.py -/

/-- A Python value passed as an argument in this module: the sources only
pass response-payload strings and the module-level compiled pattern
`_dyn_dns_org_re`. -/
inductive PyArg where
  | str (s : String)
  | pat
  deriving DecidableEq, Repr

/-- All ways `\d{1,3}` can consume the head of `cs`, longest first (the
quantifier is greedy and backtracks): the consumed digits and the rest. -/
def octetAlts (cs : List Char) : List (List Char × List Char) :=
  [3, 2, 1].filterMap fun k =>
    let t := cs.take k
    if t.length = k && t.all Char.isDigit then some (t, cs.drop k) else none

/-- Match `\.\d{1,3}` at the head of `cs`, with backtracking alternatives. -/
def dotOctetAlts (cs : List Char) : List (List Char × List Char) :=
  match cs with
  | '.' :: rest => (octetAlts rest).map fun p => ('.' :: p.1, p.2)
  | _ => []

/-- Match the capture group `(?P<ip>\d{1,3}\.\d{1,3}\.\d{1,3}\.\d{1,3})`
at the head of `cs`, returning the text the group consumed. -/
def matchQuad (cs : List Char) : Option (List Char) :=
  (octetAlts cs).findSome? fun p1 =>
    (dotOctetAlts p1.2).findSome? fun p2 =>
      (dotOctetAlts p2.2).findSome? fun p3 =>
        (dotOctetAlts p3.2).findSome? fun p4 =>
          some (p1.1 ++ p2.1 ++ p3.1 ++ p4.1)

/-- The literal part of `_dyn_dns_org_re`, lowered (the pattern carries
the `(?i)` ignore-case flag). -/
def dynDnsNeedle : List Char := "current ip address: ".toList

/-- `_dyn_dns_org_re.search`: scan left to right for the first position
where the case-insensitive literal followed by the dotted-quad group
matches, and return the text captured by the `ip` group. -/
def dynDnsOrgReSearch : List Char → Option (List Char)
  | [] => none
  | c :: rest =>
      let cs := c :: rest
      if (cs.take dynDnsNeedle.length).map Char.toLower = dynDnsNeedle then
        match matchQuad (cs.drop dynDnsNeedle.length) with
        | some cap => some cap
        | none => dynDnsOrgReSearch rest
      else
        dynDnsOrgReSearch rest

/-- Body of `_get_ip_with_re` (publicipsources.py lines 52-56) once its
parameters are bound: `exp.search(response_payload)` followed by
`match.groupdict().get("ip", None)`. -/
def getIpWithReBody (responsePayload : String) : Option String :=
  (dynDnsOrgReSearch responsePayload.toList).map List.asString

/-- Number of parameters the module-level helper `_get_ip_with_re`
declares (publicipsources.py line 52): `self`, `response_payload`, `exp`
— none of them has a default. -/
def getIpWithReParamCount : ℕ := 3

/-- Python positional call of `_get_ip_with_re`: binding fewer (or more)
positional arguments than the three declared parameters raises
`TypeError` before the body runs; with all three bound, the body runs
with `response_payload` the second argument and `exp` the third. -/
def callGetIpWithRe (args : List PyArg) : Except PyErr (Option String) :=
  if args.length ≠ getIpWithReParamCount then
    .error .typeError
  else
    match args with
    | [_, .str payload, .pat] => .ok (getIpWithReBody payload)
    | _ => .error .typeError

/-- The DynDNS entry's extraction lambda (publicipsources.py lines 23-25):
`lambda response_payload: _get_ip_with_re(response_payload,
_dyn_dns_org_re)` — it passes only two positional arguments. -/
def dynDnsGetIpRoutine (payload : String) : Except PyErr (Option String) :=
  callGetIpWithRe [.str payload, .pat]

/-- The whole-body trim strategy used by the AWS, WtfIsMyIP, ICanHazIP and
My-IP.io entries: `lambda response: response.strip()`. -/
def stripGetIpRoutine (payload : String) : Except PyErr (Option String) :=
  .ok (some payload.trim)

/-- The DynDNS entry of `PUBLIC_IP_SOURCES` (publicipsources.py lines
19-26), created at import time `now` with the constructor's default
`max_inactive_secs` of 30 days. -/
def dynDnsSource (now : ℚ) : PublicIpSource :=
  PublicIpSource.init "DynDNS" "http://checkip.dyndns.org" 600 2592000 now

/-! ## Concrete fixtures (mirroring tests/test_publicip.py and
tests/test_dyndnsclient.py set-ups) used to instantiate the theorems -/

/-- A freshly constructed source with `ttl_sec = 60` and the default
30-day inactivity budget, created at time 0. -/
def srcFresh : PublicIpSource :=
  PublicIpSource.init "Test-Source" "http://local" 60 2592000 0

/-- A freshly constructed source with `ttl_sec = 0`. -/
def srcZeroTtl : PublicIpSource :=
  PublicIpSource.init "Test-Source" "http://local" 0 2592000 0

/-- A never-successful source with `max_inactive_secs = 1` (the budget the
disable test of the repository uses), created at time 0. -/
def srcShortBudget : PublicIpSource :=
  PublicIpSource.init "Test-Source" "http://local" 0 1 0

/-- A source carrying a prior run of three consecutive HTTP errors. -/
def srcHttpErrHistory : PublicIpSource :=
  { srcZeroTtl with consecutiveHttpErrorCount := 3 }

/-- A source whose TTL has not expired yet at the times the theorems use. -/
def srcSleeping : PublicIpSource :=
  { srcFresh with nextPollTimestamp := some 100 }

/-- An extraction strategy that raises (the repository's own test double
`bad_ip_routine` raises `ValueError`). -/
def failRoutine : String → Except PyErr (Option String) :=
  fun _ => .error .valueError

/-- The poll times of the ten-consecutive-429 scenario: far enough apart
that every attempt happens after the backed-off `next_poll_timestamp`
(the largest backoff, `1.5 ^ 10 < 100`, is smaller than the gap). -/
def throttleTimes : List ℚ :=
  [100, 200, 300, 400, 500, 600, 700, 800, 900, 1000]

/-- The source state after ten consecutive 429 polls of a `ttl_sec = 0`
source at the times of `throttleTimes`. -/
def throttleScenarioState : PublicIpSource :=
  throttleTimes.foldl
    (fun s t => (getMyPublicIp s t (.errStatus 429) stripGetIpRoutine).state)
    srcZeroTtl

/-- A round-robin pool whose first source is ineligible (unexpired TTL)
and whose second source is eligible, with the index at position 0. -/
def mpTwo : MyPublicIP := ⟨[srcSleeping, srcFresh], some 0⟩

/-- The cached value `reconcile` would hold after its cache-refresh step
at time `now`, when the resolver answers with the single record `q`:
refreshed to `q` on a stale cache, the old value otherwise. -/
def cachedAfterRefresh (c : DynDnsClient) (now : ℚ) (q : Ipv4) : Option Ipv4 :=
  if c.dnsCacheTtlSec ≤ now - c.lastDnsQueryTimestamp then some q else c.currentIp

/-- A client (mirroring the test fixture, but with `dns_cache_ttl_sec =
60`) that currently caches the published IP 31.16.44.203. -/
def clientCached : DynDnsClient :=
  { DynDnsClient.init "domain-com" "domain.com." "http://api" "test.domain.com" 60 with
    currentIp := some ⟨31, 16, 44, 203⟩ }

/-- Position `j` of the collection holds a source the selector loop can
return at time `now`: enabled with an expired `next_poll_timestamp`. -/
def eligibleAt (srcs : List PublicIpSource) (now : ℚ) (j : ℕ) : Prop :=
  ∃ src, srcs.get? j = some src ∧ src.enabled = true ∧
    ∃ t, src.nextPollTimestamp = some t ∧ t ≤ now

/-- Position `j` of the collection holds a source whose
`next_poll_timestamp` is `None`, on which the selector loop's comparison
raises `TypeError`. -/
def crashAt (srcs : List PublicIpSource) (j : ℕ) : Prop :=
  ∃ src, srcs.get? j = some src ∧ src.nextPollTimestamp = none

/-! ## Helper lemmas -/

theorem getMyPublicIp_attempt (s : PublicIpSource) (now t : ℚ)
    (fetch : FetchResult) (routine : String → Except PyErr (Option String))
    (h1 : s.enabled = true) (h2 : s.nextPollTimestamp = some t) (h3 : t ≤ now) :
    getMyPublicIp s now fetch routine =
      pollAttempt
        { s with
          lastPollTimestamp := some now,
          nextPollTimestamp := some (now + s.ttlSec) }
        now fetch routine := by
  unfold getMyPublicIp
  rw [h2]
  simp [h1, not_lt.mpr h3]

theorem checkForExpiration_counts (s : PublicIpSource) (now : ℚ) :
    (checkForExpiration s now).consecutiveHttpErrorCount = s.consecutiveHttpErrorCount ∧
    (checkForExpiration s now).consecutiveHttp429Count = s.consecutiveHttp429Count ∧
    (checkForExpiration s now).consecutiveErrorCount = s.consecutiveErrorCount ∧
    (checkForExpiration s now).lastPollTimestamp = s.lastPollTimestamp ∧
    (checkForExpiration s now).lastSuccessfulPoll = s.lastSuccessfulPoll := by
  unfold checkForExpiration
  by_cases h : s.maxInactiveSecs < now - pyOrQ s.lastSuccessfulPoll s.epochTimestamp <;>
    simp [h]

theorem checkForExpiration_not_expired (s : PublicIpSource) (now : ℚ)
    (h : now - pyOrQ s.lastSuccessfulPoll s.epochTimestamp ≤ s.maxInactiveSecs) :
    checkForExpiration s now = s := by
  unfold checkForExpiration
  rw [if_neg (not_lt.mpr h)]

/-! ## Claims -/

/-- C3: For every source and every time `now`, calling poll when the
source is disabled, or when `now < next_poll_timestamp`, fails with
`DisabledSource` respectively `TtlNotExpired`, leaves every mutable field
of the source byte-for-byte unchanged, and performs no network call. -/
theorem c3_precheck_no_state_change :
    (∀ (s : PublicIpSource) (now : ℚ) (fetch : FetchResult)
        (routine : String → Except PyErr (Option String)),
        s.enabled = false →
        getMyPublicIp s now fetch routine = ⟨.ok none, .disabledSource, 0, s⟩) ∧
    (∀ (s : PublicIpSource) (now t : ℚ) (fetch : FetchResult)
        (routine : String → Except PyErr (Option String)),
        s.enabled = true → s.nextPollTimestamp = some t → now < t →
        getMyPublicIp s now fetch routine = ⟨.ok none, .ttlNotExpired, 0, s⟩) := by
  constructor
  · intro s now fetch routine h
    unfold getMyPublicIp
    simp [h]
  · intro s now t fetch routine h1 h2 h3
    unfold getMyPublicIp
    rw [h2]
    simp [h1, h3]

/-- C3 witness: a disabled source and an unexpired-TTL source, polled at
concrete times, are returned unchanged with no network call. -/
theorem c3_precheck_no_state_change_witness :
    ({ srcFresh with enabled := false } : PublicIpSource).enabled = false ∧
    getMyPublicIp { srcFresh with enabled := false } 5 .noResponse stripGetIpRoutine
      = ⟨.ok none, .disabledSource, 0, { srcFresh with enabled := false }⟩ ∧
    srcSleeping.enabled = true ∧ srcSleeping.nextPollTimestamp = some 100 ∧
    (5 : ℚ) < 100 ∧
    getMyPublicIp srcSleeping 5 .noResponse stripGetIpRoutine
      = ⟨.ok none, .ttlNotExpired, 0, srcSleeping⟩ :=
  ⟨rfl,
   c3_precheck_no_state_change.1 { srcFresh with enabled := false } 5 .noResponse
     stripGetIpRoutine rfl,
   rfl, rfl, by norm_num,
   c3_precheck_no_state_change.2 srcSleeping 5 100 .noResponse stripGetIpRoutine
     rfl rfl (by norm_num)⟩

/-- C6 (code bug): a transport failure in which no HTTP response was
received at all is claimed to increment `consecutive_http_error_count`
and return a failure outcome without raising; instead the `except` block
dereferences the unbound local `response` (publicip.py line 107) and an
`UnboundLocalError` escapes to the caller, with
`consecutive_http_error_count` untouched. -/
theorem c6_connection_error_escapes :
    (getMyPublicIp srcFresh 5 .noResponse stripGetIpRoutine).retVal
      = .error .unboundLocalError ∧
    (getMyPublicIp srcFresh 5 .noResponse stripGetIpRoutine).outcome = .raised ∧
    (getMyPublicIp srcFresh 5 .noResponse stripGetIpRoutine).state.consecutiveHttpErrorCount
      = srcFresh.consecutiveHttpErrorCount ∧
    (getMyPublicIp srcFresh 5 .noResponse stripGetIpRoutine).state.consecutiveErrorCount
      = srcFresh.consecutiveErrorCount + 1 :=
  ⟨rfl, rfl, rfl, rfl⟩

/-- C4 (code bug): at a failed poll attempt whose elapsed time since
creation exceeds `max_inactive_secs`, the claim says the source becomes
disabled; but when the failure is a connection error with no response,
the `UnboundLocalError` raised on publicip.py line 107 skips
`_check_for_expiration`, so the source stays enabled. -/
theorem c4_missed_disable_on_connection_error :
    srcShortBudget.maxInactiveSecs
        < 10 - pyOrQ srcShortBudget.lastSuccessfulPoll srcShortBudget.epochTimestamp ∧
    (getMyPublicIp srcShortBudget 10 .noResponse stripGetIpRoutine).retVal
      = .error .unboundLocalError ∧
    (getMyPublicIp srcShortBudget 10 .noResponse stripGetIpRoutine).state.enabled = true ∧
    (getMyPublicIp srcShortBudget 10 .noResponse stripGetIpRoutine).state.nextPollTimestamp
      = some 10 := by
  refine ⟨by norm_num [srcShortBudget, PublicIpSource.init, pyOrQ], rfl, rfl, ?_⟩
  norm_num [getMyPublicIp, pollAttempt, srcShortBudget, PublicIpSource.init]

/-- C1: A poll whose HTTP fetch fails with status 429 increments
`consecutive_http_429_count`, resets `consecutive_http_error_count` to 0,
and overrides `next_poll_timestamp` to `now + ttl_sec + 1.5 ^ count`
using the incremented count (the override stands whenever the inactivity
check that follows does not fire); and after the ten-consecutive-429
scenario with `ttl_sec = 0` the count is 10 and `next_poll_timestamp`
equals `last_poll_timestamp + ttl_sec + 1.5 ^ 10`. -/
theorem c1_throttle_backoff :
    (∀ (s : PublicIpSource) (now t : ℚ)
        (routine : String → Except PyErr (Option String)),
        s.enabled = true → s.nextPollTimestamp = some t → t ≤ now →
        (getMyPublicIp s now (.errStatus 429) routine).state.consecutiveHttp429Count
          = s.consecutiveHttp429Count + 1 ∧
        (getMyPublicIp s now (.errStatus 429) routine).state.consecutiveHttpErrorCount = 0 ∧
        (now - pyOrQ s.lastSuccessfulPoll s.epochTimestamp ≤ s.maxInactiveSecs →
          (getMyPublicIp s now (.errStatus 429) routine).state.nextPollTimestamp
            = some (now + s.ttlSec + backoffFactor ^ (s.consecutiveHttp429Count + 1)))) ∧
    throttleScenarioState.consecutiveHttp429Count = 10 ∧
    throttleScenarioState.lastPollTimestamp = some 1000 ∧
    throttleScenarioState.nextPollTimestamp
      = some (1000 + srcZeroTtl.ttlSec + backoffFactor ^ 10) := by
  constructor
  · intro s now t routine h1 h2 h3
    rw [getMyPublicIp_attempt s now t _ routine h1 h2 h3]
    unfold pollAttempt
    dsimp only
    rw [if_pos rfl]
    refine ⟨?_, ?_, ?_⟩
    · exact (checkForExpiration_counts _ _).2.1
    · exact (checkForExpiration_counts _ _).1
    · intro h
      rw [checkForExpiration_not_expired]
      exact h
  · norm_num [throttleScenarioState, throttleTimes, List.foldl, getMyPublicIp, pollAttempt,
      checkForExpiration, pyOrQ, srcZeroTtl, PublicIpSource.init, backoffFactor]

/-- C1 witness: the 429 branch of the general statement instantiated on a
concrete eligible source at time 5. -/
theorem c1_throttle_backoff_witness :
    srcFresh.enabled = true ∧ srcFresh.nextPollTimestamp = some 0 ∧ (0 : ℚ) ≤ 5 ∧
    (5 : ℚ) - pyOrQ srcFresh.lastSuccessfulPoll srcFresh.epochTimestamp
      ≤ srcFresh.maxInactiveSecs ∧
    (getMyPublicIp srcFresh 5 (.errStatus 429) stripGetIpRoutine).state.consecutiveHttp429Count
      = srcFresh.consecutiveHttp429Count + 1 ∧
    (getMyPublicIp srcFresh 5 (.errStatus 429) stripGetIpRoutine).state.consecutiveHttpErrorCount
      = 0 ∧
    (getMyPublicIp srcFresh 5 (.errStatus 429) stripGetIpRoutine).state.nextPollTimestamp
      = some (5 + srcFresh.ttlSec + backoffFactor ^ (srcFresh.consecutiveHttp429Count + 1)) := by
  have hmax : (5 : ℚ) - pyOrQ srcFresh.lastSuccessfulPoll srcFresh.epochTimestamp
      ≤ srcFresh.maxInactiveSecs := by
    norm_num [srcFresh, PublicIpSource.init, pyOrQ]
  have h := c1_throttle_backoff.1 srcFresh 5 0 stripGetIpRoutine rfl rfl (by norm_num)
  exact ⟨rfl, rfl, by norm_num, hmax, h.1, h.2.1, h.2.2 hmax⟩

theorem checkForExpiration_cec (s : PublicIpSource) (now : ℚ) :
    (checkForExpiration s now).consecutiveErrorCount = s.consecutiveErrorCount :=
  (checkForExpiration_counts s now).2.2.1

/-- C9: on every attempt that reaches the network (one `requests.get` is
performed), `consecutive_error_count` is incremented whenever the outcome
is not a full success — HTTP-layer failures, the no-response raise,
extraction failures and IP-validation failures alike — and it is reset to
0 exactly on a fully successful poll. -/
theorem c9_error_count_all_failures :
    ∀ (s : PublicIpSource) (now t : ℚ) (fetch : FetchResult)
      (routine : String → Except PyErr (Option String)),
      s.enabled = true → s.nextPollTimestamp = some t → t ≤ now →
      ((getMyPublicIp s now fetch routine).outcome = .success →
        (getMyPublicIp s now fetch routine).state.consecutiveErrorCount = 0) ∧
      ((getMyPublicIp s now fetch routine).outcome ≠ .success →
        (getMyPublicIp s now fetch routine).state.consecutiveErrorCount
          = s.consecutiveErrorCount + 1) ∧
      (getMyPublicIp s now fetch routine).httpRequests = 1 := by
  intro s now t fetch routine h1 h2 h3
  rw [getMyPublicIp_attempt s now t fetch routine h1 h2 h3]
  cases fetch with
  | noResponse => simp [pollAttempt]
  | errStatus code =>
      by_cases hc : code = 429 <;>
        simp [pollAttempt, hc, checkForExpiration_cec]
  | ok body =>
      rcases hr : routine body with e | ipStr?
      · simp [pollAttempt, hr, checkForExpiration_cec]
      · rcases hv : validateGlobalIpv4 ipStr? with _ | ip
        · simp [pollAttempt, hr, hv, checkForExpiration_cec]
        · simp [pollAttempt, hr, hv]

/-- C9 witness: the characterization instantiated on a concrete eligible
source polled at time 5 with an HTTP 500 failure. -/
theorem c9_error_count_all_failures_witness :
    srcFresh.enabled = true ∧ srcFresh.nextPollTimestamp = some 0 ∧ (0 : ℚ) ≤ 5 ∧
    (((getMyPublicIp srcFresh 5 (.errStatus 500) stripGetIpRoutine).outcome = .success →
      (getMyPublicIp srcFresh 5 (.errStatus 500) stripGetIpRoutine).state.consecutiveErrorCount
        = 0) ∧
    ((getMyPublicIp srcFresh 5 (.errStatus 500) stripGetIpRoutine).outcome ≠ .success →
      (getMyPublicIp srcFresh 5 (.errStatus 500) stripGetIpRoutine).state.consecutiveErrorCount
        = srcFresh.consecutiveErrorCount + 1) ∧
    (getMyPublicIp srcFresh 5 (.errStatus 500) stripGetIpRoutine).httpRequests = 1) :=
  ⟨rfl, rfl, by norm_num,
   c9_error_count_all_failures srcFresh 5 0 (.errStatus 500) stripGetIpRoutine rfl rfl
     (by norm_num)⟩

/-- C8 counterexample: a source entering a poll with
`consecutive_http_error_count = 3` whose HTTP fetch succeeds and whose
extraction strategy raises ends the attempt with
`consecutive_http_error_count = 0`, not the retained prior value the
claim asserts (lines 128-129 of publicip.py reset both HTTP counters as
soon as the fetch succeeds). -/
theorem c8_counterexample_http_counters_reset :
    srcHttpErrHistory.consecutiveHttpErrorCount = 3 ∧
    (getMyPublicIp srcHttpErrHistory 5 (.ok "payload") failRoutine).outcome
      = .extractionError ∧
    (getMyPublicIp srcHttpErrHistory 5 (.ok "payload") failRoutine).state.consecutiveHttpErrorCount
      = 0 ∧
    (getMyPublicIp srcHttpErrHistory 5 (.ok "payload") failRoutine).state.consecutiveHttpErrorCount
      ≠ srcHttpErrHistory.consecutiveHttpErrorCount := by
  norm_num [srcHttpErrHistory, srcZeroTtl, PublicIpSource.init, getMyPublicIp, pollAttempt,
    failRoutine, checkForExpiration, pyOrQ]

/-- C8 amended: on a poll whose HTTP fetch succeeds and whose extraction
strategy raises or returns no match, `consecutive_error_count` is
incremented and both `consecutive_http_error_count` and
`consecutive_http_429_count` are reset to 0 (the HTTP-success reset, not
the values they held before the attempt). -/
theorem c8_amended_extraction_failure_resets_http_counters :
    ∀ (s : PublicIpSource) (now t : ℚ) (body : String)
      (routine : String → Except PyErr (Option String)),
      s.enabled = true → s.nextPollTimestamp = some t → t ≤ now →
      ((∃ e, routine body = .error e) ∨ routine body = .ok none) →
      (getMyPublicIp s now (.ok body) routine).state.consecutiveErrorCount
        = s.consecutiveErrorCount + 1 ∧
      (getMyPublicIp s now (.ok body) routine).state.consecutiveHttpErrorCount = 0 ∧
      (getMyPublicIp s now (.ok body) routine).state.consecutiveHttp429Count = 0 := by
  intro s now t body routine h1 h2 h3 h4
  rw [getMyPublicIp_attempt s now t _ routine h1 h2 h3]
  rcases h4 with ⟨e, hr⟩ | hr <;>
    simp [pollAttempt, hr, validateGlobalIpv4, checkForExpiration_cec,
      (checkForExpiration_counts _ _).1, (checkForExpiration_counts _ _).2.1]

/-- C8 amended witness: the amended statement instantiated on the
concrete source with three prior HTTP errors and a raising strategy. -/
theorem c8_amended_extraction_failure_resets_http_counters_witness :
    srcHttpErrHistory.enabled = true ∧
    srcHttpErrHistory.nextPollTimestamp = some 0 ∧ (0 : ℚ) ≤ 5 ∧
    failRoutine "payload" = .error .valueError ∧
    ((getMyPublicIp srcHttpErrHistory 5 (.ok "payload") failRoutine).state.consecutiveErrorCount
      = srcHttpErrHistory.consecutiveErrorCount + 1 ∧
    (getMyPublicIp srcHttpErrHistory 5 (.ok "payload") failRoutine).state.consecutiveHttpErrorCount
      = 0 ∧
    (getMyPublicIp srcHttpErrHistory 5 (.ok "payload") failRoutine).state.consecutiveHttp429Count
      = 0) :=
  ⟨rfl, rfl, by norm_num, rfl,
   c8_amended_extraction_failure_resets_http_counters srcHttpErrHistory 5 0 "payload"
     failRoutine rfl rfl (by norm_num) (.inl ⟨.valueError, rfl⟩)⟩

/-- C10: the DynDNS entry's extraction strategy always raises —
`_get_ip_with_re` declares the extra leading parameter `self` and the
one-argument lambda invokes it with only two positional arguments, a
`TypeError` for every payload — so an HTTP-successful poll of the DynDNS
source always takes the extraction-failure path, and no poll of the
DynDNS source can ever return an IP. -/
theorem c10_dyndns_extraction_always_fails :
    (∀ payload, dynDnsGetIpRoutine payload = .error .typeError) ∧
    (∀ (s : PublicIpSource) (now t : ℚ) (body : String),
      s.enabled = true → s.nextPollTimestamp = some t → t ≤ now →
      (getMyPublicIp s now (.ok body) dynDnsGetIpRoutine).outcome = .extractionError ∧
      (getMyPublicIp s now (.ok body) dynDnsGetIpRoutine).retVal = .ok none) ∧
    (∀ (s : PublicIpSource) (now : ℚ) (fetch : FetchResult) (ip : Ipv4),
      (getMyPublicIp s now fetch dynDnsGetIpRoutine).retVal ≠ .ok (some ip)) := by
  refine ⟨fun _ => rfl, ?_, ?_⟩
  · intro s now t body h1 h2 h3
    rw [getMyPublicIp_attempt s now t _ dynDnsGetIpRoutine h1 h2 h3]
    simp [pollAttempt, show dynDnsGetIpRoutine body = .error .typeError from rfl]
  · intro s now fetch ip
    unfold getMyPublicIp
    by_cases he : s.enabled = false
    · simp [he]
    · rcases hnp : s.nextPollTimestamp with _ | t
      · simp [he, hnp]
      · by_cases hlt : now < t
        · simp [he, hnp, hlt]
        · simp only [he, hnp, hlt]
          cases fetch with
          | noResponse => simp [pollAttempt]
          | errStatus code =>
              by_cases hc : code = 429 <;> simp [pollAttempt, hc]
          | ok body =>
              simp [pollAttempt, show dynDnsGetIpRoutine body = .error .typeError from rfl]

/-- C10 witness: the DynDNS source created at time 0, polled at time 5
with a payload that would match the regex, still takes the
extraction-failure path. -/
theorem c10_dyndns_extraction_always_fails_witness :
    (dynDnsSource 0).enabled = true ∧ (dynDnsSource 0).nextPollTimestamp = some 0 ∧
    (0 : ℚ) ≤ 5 ∧
    ((getMyPublicIp (dynDnsSource 0) 5 (.ok "Current IP Address: 31.16.44.203")
        dynDnsGetIpRoutine).outcome = .extractionError ∧
    (getMyPublicIp (dynDnsSource 0) 5 (.ok "Current IP Address: 31.16.44.203")
        dynDnsGetIpRoutine).retVal = .ok none) :=
  ⟨rfl, rfl, by norm_num,
   c10_dyndns_extraction_always_fails.2.1 (dynDnsSource 0) 5 0
     "Current IP Address: 31.16.44.203" rfl rfl (by norm_num)⟩

/-- C2: `reconcile(new_ip, now)` refreshes the cache from a DNS lookup
exactly when the cache is stale (here the lookup answers the single
record `q`); afterwards an unchanged IP causes zero update calls and the
`Unchanged` outcome, a changed IP causes exactly one authenticated update
call, which on transport success sets the cache to `new_ip` and yields
`Updated` and on transport failure leaves the cache as it stood after the
refresh and yields `UpdateFailed` without throwing. -/
theorem c2_reconcile_cache_discipline :
    ∀ (c : DynDnsClient) (newIp q : Ipv4) (now : ℚ) (postOk : Bool),
    (updateDnsRecord c newIp now (.ok (some q)) (.ok ()) postOk).dnsQueries
      = (if c.dnsCacheTtlSec ≤ now - c.lastDnsQueryTimestamp then 1 else 0) ∧
    (updateDnsRecord c newIp now (.ok (some q)) (.ok ()) postOk).state.lastDnsQueryTimestamp
      = (if c.dnsCacheTtlSec ≤ now - c.lastDnsQueryTimestamp then now
         else c.lastDnsQueryTimestamp) ∧
    (cachedAfterRefresh c now q = some newIp →
      (updateDnsRecord c newIp now (.ok (some q)) (.ok ()) postOk).updateCalls = 0 ∧
      (updateDnsRecord c newIp now (.ok (some q)) (.ok ()) postOk).result = .ok .unchanged ∧
      (updateDnsRecord c newIp now (.ok (some q)) (.ok ()) postOk).state.currentIp
        = some newIp) ∧
    (cachedAfterRefresh c now q ≠ some newIp →
      (updateDnsRecord c newIp now (.ok (some q)) (.ok ()) postOk).updateCalls = 1 ∧
      (postOk = true →
        (updateDnsRecord c newIp now (.ok (some q)) (.ok ()) postOk).result = .ok .updated ∧
        (updateDnsRecord c newIp now (.ok (some q)) (.ok ()) postOk).state.currentIp
          = some newIp) ∧
      (postOk = false →
        (updateDnsRecord c newIp now (.ok (some q)) (.ok ()) postOk).result
          = .ok .updateFailed ∧
        (updateDnsRecord c newIp now (.ok (some q)) (.ok ()) postOk).state.currentIp
          = cachedAfterRefresh c now q)) := by
  intro c newIp q now postOk
  by_cases hst : c.dnsCacheTtlSec ≤ now - c.lastDnsQueryTimestamp
  · by_cases heq : q = newIp <;> cases postOk <;>
      simp [updateDnsRecord, queryDns, cachedAfterRefresh, reconcileTail,
        updateDnsRecordPost, hst, heq]
  · by_cases heq : c.currentIp = some newIp <;> cases postOk <;>
      simp [updateDnsRecord, queryDns, cachedAfterRefresh, reconcileTail,
        updateDnsRecordPost, hst, heq]

/-- C2 witness: a stale cache holding 31.16.44.203, reconciled with a new
IP 1.2.3.4 at time 100 against a resolver answering 31.16.44.203 and a
successful POST: one lookup, one update call, outcome `Updated`. -/
theorem c2_reconcile_cache_discipline_witness :
    cachedAfterRefresh clientCached 100 ⟨31, 16, 44, 203⟩ ≠ some ⟨1, 2, 3, 4⟩ ∧
    (updateDnsRecord clientCached ⟨1, 2, 3, 4⟩ 100 (.ok (some ⟨31, 16, 44, 203⟩))
      (.ok ()) true).updateCalls = 1 ∧
    (updateDnsRecord clientCached ⟨1, 2, 3, 4⟩ 100 (.ok (some ⟨31, 16, 44, 203⟩))
      (.ok ()) true).result = .ok .updated ∧
    (updateDnsRecord clientCached ⟨1, 2, 3, 4⟩ 100 (.ok (some ⟨31, 16, 44, 203⟩))
      (.ok ()) true).state.currentIp = some ⟨1, 2, 3, 4⟩ ∧
    (updateDnsRecord clientCached ⟨1, 2, 3, 4⟩ 100 (.ok (some ⟨31, 16, 44, 203⟩))
      (.ok ()) true).dnsQueries = 1 := by
  have h := c2_reconcile_cache_discipline clientCached ⟨1, 2, 3, 4⟩ ⟨31, 16, 44, 203⟩ 100 true
  have hne : cachedAfterRefresh clientCached 100 ⟨31, 16, 44, 203⟩ ≠ some ⟨1, 2, 3, 4⟩ := by
    norm_num [cachedAfterRefresh, clientCached, DynDnsClient.init]
  have h1 := h.1
  rw [if_pos (by norm_num [clientCached, DynDnsClient.init])] at h1
  exact ⟨hne, (h.2.2.2 hne).1, ((h.2.2.2 hne).2.1 rfl).1, ((h.2.2.2 hne).2.1 rfl).2, h1⟩

/-- C7 (code bug): with a stale cache, two A records do surface as a hard
error with the cache untouched (the `ValueError` of resolve propagates);
but a zero-answer lookup, claimed to update `cached_ip` to `None` and
proceed, instead raises `AttributeError` when `_query_dns` formats
`ipv4.exploded` on `None` (dyndnsclient.py line 151), leaving the cache
untouched and aborting the reconciliation. -/
theorem c7_zero_answer_lookup_crashes :
    resolveFromRrset [] = .ok none ∧
    clientCached.dnsCacheTtlSec ≤ 100 - clientCached.lastDnsQueryTimestamp ∧
    (updateDnsRecord clientCached ⟨1, 2, 3, 4⟩ 100 (resolveFromRrset []) (.ok ()) true).result
      = .error .attributeError ∧
    (updateDnsRecord clientCached ⟨1, 2, 3, 4⟩ 100 (resolveFromRrset []) (.ok ()) true).state
      = clientCached ∧
    (updateDnsRecord clientCached ⟨1, 2, 3, 4⟩ 100 (resolveFromRrset []) (.ok ())
      true).updateCalls = 0 ∧
    resolveFromRrset ["31.16.44.203", "31.16.44.204"] = .error .valueError ∧
    (updateDnsRecord clientCached ⟨1, 2, 3, 4⟩ 100
      (resolveFromRrset ["31.16.44.203", "31.16.44.204"]) (.ok ()) true).result
      = .error .valueError ∧
    (updateDnsRecord clientCached ⟨1, 2, 3, 4⟩ 100
      (resolveFromRrset ["31.16.44.203", "31.16.44.204"]) (.ok ()) true).state
      = clientCached := by
  norm_num [resolveFromRrset, updateDnsRecord, queryDns, clientCached, DynDnsClient.init]

theorem scanLoop_none_of_no_hit (srcs : List PublicIpSource) (i : ℕ) (now : ℚ) :
    ∀ (remaining cnt : ℕ),
      (∀ c, cnt ≤ c → c < cnt + remaining →
        ¬ crashAt srcs ((i + c) % srcs.length) ∧
        ¬ eligibleAt srcs now ((i + c) % srcs.length)) →
      scanLoop srcs i now cnt remaining = .ok none := by
  intro remaining
  induction remaining with
  | zero => intro cnt h; rfl
  | succ r ih =>
      intro cnt h
      unfold scanLoop
      dsimp only
      rcases hg : srcs.get? ((i + cnt) % srcs.length) with _ | src
      · rfl
      · obtain ⟨hnc, hne⟩ := h cnt le_rfl (by omega)
        dsimp only
        rcases hnp : src.nextPollTimestamp with _ | t
        · exact absurd ⟨src, hg, hnp⟩ hnc
        · dsimp only
          have hcond : ¬ (t ≤ now ∧ src.enabled = true) := by
            rintro ⟨hle, hen⟩
            exact hne ⟨src, hg, hen, t, hnp, hle⟩
          rw [if_neg hcond]
          exact ih (cnt + 1) (fun c hc1 hc2 => h c (by omega) (by omega))

theorem scanLoop_hit_first (srcs : List PublicIpSource) (i : ℕ) (now : ℚ) :
    ∀ (remaining cnt c0 : ℕ) (src : PublicIpSource) (t : ℚ),
      cnt ≤ c0 → c0 < cnt + remaining →
      srcs.get? ((i + c0) % srcs.length) = some src →
      src.nextPollTimestamp = some t → t ≤ now → src.enabled = true →
      (∀ c, cnt ≤ c → c < c0 →
        ¬ crashAt srcs ((i + c) % srcs.length) ∧
        ¬ eligibleAt srcs now ((i + c) % srcs.length)) →
      scanLoop srcs i now cnt remaining
        = .ok (some ((i + c0) % srcs.length, src)) := by
  intro remaining
  induction remaining with
  | zero =>
      intro cnt c0 src t hle hlt hg hnp hnow hen hprev
      exact absurd (Nat.lt_of_le_of_lt hle hlt) (by omega)
  | succ r ih =>
      intro cnt c0 src t hle hlt hg hnp hnow hen hprev
      unfold scanLoop
      dsimp only
      by_cases hc : cnt = c0
      · subst hc
        rw [hg]
        dsimp only
        rw [hnp]
        dsimp only
        rw [if_pos ⟨hnow, hen⟩]
      · obtain ⟨hnc, hne⟩ := hprev cnt le_rfl (by omega)
        obtain ⟨hidx, _⟩ := List.get?_eq_some.mp hg
        have hpos : 0 < srcs.length := Nat.lt_of_le_of_lt (Nat.zero_le _) hidx
        rcases hg2 : srcs.get? ((i + cnt) % srcs.length) with _ | src2
        · have := List.get?_eq_none.mp hg2
          have := Nat.mod_lt (i + cnt) hpos
          omega
        · dsimp only
          rcases hnp2 : src2.nextPollTimestamp with _ | t2
          · exact absurd ⟨src2, hg2, hnp2⟩ hnc
          · dsimp only
            have hcond2 : ¬ (t2 ≤ now ∧ src2.enabled = true) := by
              rintro ⟨hle2, hen2⟩
              exact hne ⟨src2, hg2, hen2, t2, hnp2, hle2⟩
            rw [if_neg hcond2]
            exact ih (cnt + 1) c0 src t (by omega) (by omega) hg hnp hnow hen
              (fun c hc1 hc2 => hprev c (by omega) hc2)

theorem scanLoop_crash_first (srcs : List PublicIpSource) (i : ℕ) (now : ℚ) :
    ∀ (remaining cnt c0 : ℕ) (src : PublicIpSource),
      cnt ≤ c0 → c0 < cnt + remaining →
      srcs.get? ((i + c0) % srcs.length) = some src →
      src.nextPollTimestamp = none →
      (∀ c, cnt ≤ c → c < c0 →
        ¬ crashAt srcs ((i + c) % srcs.length) ∧
        ¬ eligibleAt srcs now ((i + c) % srcs.length)) →
      scanLoop srcs i now cnt remaining = .error .typeError := by
  intro remaining
  induction remaining with
  | zero =>
      intro cnt c0 src hle hlt hg hnp hprev
      exact absurd (Nat.lt_of_le_of_lt hle hlt) (by omega)
  | succ r ih =>
      intro cnt c0 src hle hlt hg hnp hprev
      unfold scanLoop
      dsimp only
      by_cases hc : cnt = c0
      · subst hc
        rw [hg]
        dsimp only
        rw [hnp]
      · obtain ⟨hnc, hne⟩ := hprev cnt le_rfl (by omega)
        obtain ⟨hidx, _⟩ := List.get?_eq_some.mp hg
        have hpos : 0 < srcs.length := Nat.lt_of_le_of_lt (Nat.zero_le _) hidx
        rcases hg2 : srcs.get? ((i + cnt) % srcs.length) with _ | src2
        · have := List.get?_eq_none.mp hg2
          have := Nat.mod_lt (i + cnt) hpos
          omega
        · dsimp only
          rcases hnp2 : src2.nextPollTimestamp with _ | t2
          · exact absurd ⟨src2, hg2, hnp2⟩ hnc
          · dsimp only
            have hcond2 : ¬ (t2 ≤ now ∧ src2.enabled = true) := by
              rintro ⟨hle2, hen2⟩
              exact hne ⟨src2, hg2, hen2, t2, hnp2, hle2⟩
            rw [if_neg hcond2]
            exact ih (cnt + 1) c0 src (by omega) (by omega) hg hnp
              (fun c hc1 hc2 => hprev c (by omega) hc2)

/-- C5 counterexample: with sources `[srcSleeping, srcFresh]` and index 0
at time 10, the selector returns the source at position 1 but advances
the stored index only to `(0 + 1) % 2 = 1` — the position of the source
it just returned, not past it (past would be `(1 + 1) % 2 = 0`), so the
following call starts at the very source just handed out. -/
theorem c5_counterexample_index_not_past_returned :
    getNextIpSource mpTwo 10 0
      = .ok (some (1, srcFresh), ⟨[srcSleeping, srcFresh], some 1⟩) ∧
    (1 : ℕ) ≠ (1 + 1) % 2 := by
  constructor
  · rfl
  · decide

/-- C5 amended: `next_eligible` scans at most N sources from the current
index, wrapping; it returns `None` on an empty collection or when no
scanned position is eligible or disabled; it returns the first enabled
source whose `next_poll_timestamp` is ≤ `now`, advancing the stored
index to `(current index + 1) mod N` — one past the *starting* position,
not past the returned source; and when the scan reaches a disabled
source (whose `next_poll_timestamp` is `None`) before any eligible one,
the comparison `next_poll_timestamp <= now` raises `TypeError` instead
of skipping it. -/
theorem c5_amended_round_robin_selector :
    (∀ (m : MyPublicIP) (now : ℚ) (draw : ℕ), m.sources = [] →
      getNextIpSource m now draw = .ok (none, m)) ∧
    (∀ (m : MyPublicIP) (now : ℚ) (draw i : ℕ), m.nextApiIndex = some i →
      (∀ c, c < m.sources.length →
        ¬ crashAt m.sources ((i + c) % m.sources.length) ∧
        ¬ eligibleAt m.sources now ((i + c) % m.sources.length)) →
      getNextIpSource m now draw = .ok (none, m)) ∧
    (∀ (m : MyPublicIP) (now : ℚ) (draw i c0 : ℕ) (src : PublicIpSource) (t : ℚ),
      m.nextApiIndex = some i → c0 < m.sources.length →
      m.sources.get? ((i + c0) % m.sources.length) = some src →
      src.nextPollTimestamp = some t → t ≤ now → src.enabled = true →
      (∀ c, c < c0 →
        ¬ crashAt m.sources ((i + c) % m.sources.length) ∧
        ¬ eligibleAt m.sources now ((i + c) % m.sources.length)) →
      getNextIpSource m now draw
        = .ok (some ((i + c0) % m.sources.length, src),
            { m with nextApiIndex := some ((i + 1) % m.sources.length) })) ∧
    (∀ (m : MyPublicIP) (now : ℚ) (draw i c0 : ℕ) (src : PublicIpSource),
      m.nextApiIndex = some i → c0 < m.sources.length →
      m.sources.get? ((i + c0) % m.sources.length) = some src →
      src.nextPollTimestamp = none →
      (∀ c, c < c0 →
        ¬ crashAt m.sources ((i + c) % m.sources.length) ∧
        ¬ eligibleAt m.sources now ((i + c) % m.sources.length)) →
      getNextIpSource m now draw = .error .typeError) := by
  refine ⟨?_, ?_, ?_, ?_⟩
  · intro m now draw h
    unfold getNextIpSource
    simp [h]
  · intro m now draw i hm h
    unfold getNextIpSource
    by_cases hlen : m.sources.length < 1
    · rw [if_pos hlen]
    · rw [if_neg hlen]
      rw [hm]
      dsimp only
      rw [scanLoop_none_of_no_hit m.sources i now m.sources.length 0
        (fun c hc1 hc2 => h c (by omega))]
      dsimp only
      have hmeq : ({ m with nextApiIndex := some i } : MyPublicIP) = m := by
        rcases m with ⟨srcs, idx⟩
        simp only at hm
        rw [hm]
      rw [hmeq]
  · intro m now draw i c0 src t hm hc0 hg hnp hnow hen hprev
    have hlen : ¬ m.sources.length < 1 := by omega
    unfold getNextIpSource
    rw [if_neg hlen]
    rw [hm]
    dsimp only
    rw [scanLoop_hit_first m.sources i now m.sources.length 0 c0 src t (Nat.zero_le _)
      (by omega) hg hnp hnow hen (fun c hc1 hc2 => hprev c hc2)]
  · intro m now draw i c0 src hm hc0 hg hnp hprev
    have hlen : ¬ m.sources.length < 1 := by omega
    unfold getNextIpSource
    rw [if_neg hlen]
    rw [hm]
    dsimp only
    rw [scanLoop_crash_first m.sources i now m.sources.length 0 c0 src (Nat.zero_le _)
      (by omega) hg hnp (fun c hc1 hc2 => hprev c hc2)]

/-- C5 amended witness: a singleton pool with its one eligible source at
index 0 — the source is returned and the index advances to
`(0 + 1) % 1 = 0`. -/
theorem c5_amended_round_robin_selector_witness :
    (⟨[srcFresh], some 0⟩ : MyPublicIP).nextApiIndex = some 0 ∧
    (0 : ℕ) < (⟨[srcFresh], some 0⟩ : MyPublicIP).sources.length ∧
    srcFresh.nextPollTimestamp = some 0 ∧ (0 : ℚ) ≤ 10 ∧ srcFresh.enabled = true ∧
    getNextIpSource ⟨[srcFresh], some 0⟩ 10 0
      = .ok (some (0, srcFresh), ⟨[srcFresh], some 0⟩) :=
  ⟨rfl, by norm_num, rfl, by norm_num, rfl,
   c5_amended_round_robin_selector.2.2.1 ⟨[srcFresh], some 0⟩ 10 0 0 0 srcFresh 0 rfl
     (by norm_num) rfl rfl (by norm_num) rfl
     (fun c hc => absurd hc (Nat.not_lt_zero c))⟩
